import Mathlib

/-!
Verification of the workflow-graph orchestration core of the TRT_AI_BOTS
repository.

The repository builds two langgraph workflow graphs:

* the event-scheduler graph (`src/app/graph/event_scheduler_graph.py`) over the
  `AgentState` schema, compiled with a `MemorySaver` checkpointer, driven by a
  supervisor chain and a greeting chain
  (`src/app/src/utils/event_scheduler_supervisor.py`), and invoked by the
  `/interact/` route (`src/app/src/api/mail_routes.py`);
* the wine-query pipeline (`src/agent/wine_agents.py`, `build_agent_graph`)
  over a plain dict state, compiled without a checkpointer.

The node functions and the graph-construction calls are embedded from the
source.  The graph executor itself (node dispatch, merge driver, conditional
edge resolution, checkpointing, step budget) lives in the langgraph library,
whose code is not part of the sources; those parts are modelled from the
specification (sections 3, 4.3, 4.4, 4.5) and are marked `Modelled from the
spec` in their doc comments.  LLM outputs are nondeterministic inputs; they
appear as explicit oracle arguments, constrained only by the declared
function-calling schemas of the source.
-/

namespace TRT

/-- Chat messages in the event-scheduler state are opaque to the orchestration
core; only their identity matters for the merge semantics, so they are modelled
as strings. -/
abbrev Message := String

/-- Embedding of `AgentState` (src/app/graph/event_scheduler_graph.py lines
26-29): `messages` is annotated with the reducer `operator.add` — an
accumulating field, sequence concatenation — while `next` carries no reducer
and is overwriting.  `next` is an `Option` so that the value before any write
and an explicit Python `None` write are both representable. -/
structure AgentState where
  messages : List Message
  next : Option String
deriving Repr, DecidableEq

/-- A partial update produced by an event-scheduler node.  A key may be absent
from the update: an absent `messages` key contributes the empty sequence to the
accumulating channel, and for the overwriting key `next` the outer `Option`
records presence in the update while the inner `Option` is the written value
(which may itself be an explicit no-value, Python `None`). -/
structure AgentStateUpdate where
  messages : List Message
  next : Option (Option String)
deriving Repr, DecidableEq

/-- Merge of one node output into the event-scheduler state, per the schema
declared at src/app/graph/event_scheduler_graph.py lines 26-29: the
accumulating `messages` channel concatenates (`operator.add`), the overwriting
`next` channel takes the update's value exactly when the update carries the
key.  The per-key dispatch of the merge driver is langgraph's; it is modelled
from the spec, section 4.1. -/
def mergeAgentState (cur : AgentState) (upd : AgentStateUpdate) : AgentState where
  messages := cur.messages ++ upd.messages
  next :=
    match upd.next with
    | some v => v
    | none => cur.next

/-- C1: state merge semantics.  For every current state and partial update, the
accumulating `messages` key gets the update's sequence concatenated onto the
existing one — order preserved and duplicates retained (per-message counts
add) — while the overwriting `next` key is replaced entirely by the update's
value whenever the update carries the key, including replacement by an explicit
no-value; when the update omits the key the existing value stays. -/
theorem C1_merge_semantics (cur : AgentState) (upd : AgentStateUpdate) :
    (mergeAgentState cur upd).messages = cur.messages ++ upd.messages
    ∧ (∀ m : Message,
        (mergeAgentState cur upd).messages.count m
          = cur.messages.count m + upd.messages.count m)
    ∧ (∀ v : Option String, upd.next = some v → (mergeAgentState cur upd).next = v)
    ∧ (upd.next = none → (mergeAgentState cur upd).next = cur.next) := by
  refine ⟨rfl, ?_, ?_, ?_⟩
  · intro m
    simp [mergeAgentState, List.count_append]
  · intro v h
    simp [mergeAgentState, h]
  · intro h
    simp [mergeAgentState, h]

/-- Witness for C1 at a concrete state and update: the update writes an
explicit no-value into `next` and appends a duplicate message. -/
theorem C1_merge_semantics_witness :
    (mergeAgentState ⟨["hi"], some "supervisor"⟩ ⟨["hi"], some none⟩).next = none
    ∧ (mergeAgentState ⟨["hi"], some "supervisor"⟩ ⟨["hi"], some none⟩).messages
        = ["hi", "hi"] := by
  refine ⟨(C1_merge_semantics _ _).2.2.1 none rfl, ?_⟩
  rw [(C1_merge_semantics ⟨["hi"], some "supervisor"⟩ ⟨["hi"], some none⟩).1]
  rfl

/-- The langgraph start sentinel: the virtual source of the entry edge. -/
def START : String := "__start__"

/-- The langgraph end sentinel, the TERMINAL target of the spec. -/
def END : String := "__end__"

/-- Router options of the greeting chain
(src/app/src/utils/event_scheduler_supervisor.py line 9): the function-calling
schema constrains the parsed `next` value to this enum. -/
def greetingOptions : List String := ["prechat_agent", "greet_agent", "FINISH"]

/-- Member node names (src/app/src/utils/event_scheduler_supervisor.py lines
51-59); after the reassignment at line 62 the supervisor's router options are
exactly this list. -/
def members : List String :=
  ["greeting_chain", "prechat_agent", "comparison", "colortrend",
   "scheduler_agent", "fallback_agent", "feedback_agent"]

/-- Static edges of the event-scheduler graph in construction order
(src/app/graph/event_scheduler_graph.py lines 64-70 and 81): every member
except `greeting_chain` gets an edge to `END`, then `greet_agent` gets an edge
to `END` and another to `greeting_chain`, and the start sentinel feeds
`supervisor`. -/
def eventStaticEdges : List (String × String) :=
  ((members.filter (fun m => m ≠ "greeting_chain")).map (fun m => (m, END)))
    ++ [("greet_agent", END), ("greet_agent", "greeting_chain"), (START, "supervisor")]

/-- Path map of the greeting chain's conditional edge
(src/app/graph/event_scheduler_graph.py line 77). -/
def greetingConditionalMap : List (String × String) :=
  [("prechat_agent", "prechat_agent"), ("greet_agent", "greet_agent"), ("FINISH", END)]

/-- Path map of the supervisor's conditional edge
(src/app/graph/event_scheduler_graph.py line 72): the identity map over the
member names. -/
def conditional_map : List (String × String) :=
  members.map (fun k => (k, k))

/-- Every (from, target) transition of the event-scheduler graph, for
reachability: the static edges plus every target of the two conditional
edges. -/
def eventAllEdges : List (String × String) :=
  eventStaticEdges
    ++ greetingConditionalMap.map (fun p => ("greeting_chain", p.2))
    ++ conditional_map.map (fun p => ("supervisor", p.2))

/-- Successors of a node along any transition of the event-scheduler graph. -/
def eventSuccs (n : String) : List String :=
  (eventAllEdges.filter (fun p => p.1 = n)).map (fun p => p.2)

/-- One breadth-first expansion of a reachability frontier. -/
def reachStep (frontier : List String) : List String :=
  (frontier ++ frontier.flatMap eventSuccs).dedup

/-- Node names reachable from the start sentinel of the event-scheduler graph
(the graph has nine nodes plus two sentinels, so eleven expansions close the
set). -/
def eventReachable : List String :=
  reachStep^[11] [START]

/-- Outgoing edge count of a node in the event-scheduler graph: one per static
edge added, plus one if the node carries a conditional edge (a conditional edge
is a single outgoing edge however many targets its path map declares). -/
def eventOutDegree (n : String) : Nat :=
  (eventStaticEdges.filter (fun p => p.1 = n)).length
    + (if n = "greeting_chain" ∨ n = "supervisor" then 1 else 0)

/-- C6: the single-outgoing-edge invariant fails on the code.  The node
`greet_agent` is reachable from the entry of the event-scheduler graph, yet the
construction gives it two outgoing static edges — one to `END` and one to
`greeting_chain` (src/app/graph/event_scheduler_graph.py lines 69-70) — where
the claim requires exactly one. -/
theorem C6_greet_agent_has_two_edges :
    "greet_agent" ∈ eventReachable
    ∧ eventOutDegree "greet_agent" = 2
    ∧ eventStaticEdges.filter (fun p => p.1 = "greet_agent")
        = [("greet_agent", END), ("greet_agent", "greeting_chain")] := by
  decide

/-- Embedding of a Pinecone match as the wine nodes consume it: of the match's
metadata only `doc_type` and `text` are ever read (src/agent/wine_agents.py
lines 336, 352-353, 370-371), and every upserted vector carries metadata with
both keys (lines 155-168). -/
structure WineMatch where
  docType : String
  text : String
deriving Repr, DecidableEq

/-- State of the wine pipeline (`StateGraph(dict)`,
src/agent/wine_agents.py line 429): a plain mapping with no accumulating
fields, one `Option` per key the nodes read or write, `none` meaning the key is
absent.  The same shape serves as a node's partial update, where `none` means
the key is absent from the returned dict.  The reserved routing key `__next__`
is the field `nextKey`: its outer `Option` is presence, its inner `Option` the
written value, which answer synthesis can legally set to Python `None`.  The
LLM-produced analysis JSON is opaque to the orchestration and modelled as a
string. -/
structure WineState where
  query : Option String := none
  query_analysis : Option String := none
  retrieved_chunks : Option (List String) := none
  text_sufficient : Option Bool := none
  vector_matches : Option (List WineMatch) := none
  vision_chunks : Option (List String) := none
  vision_sufficient : Option Bool := none
  ocr_chunks : Option (List String) := none
  no_answer : Option Bool := none
  final_response : Option String := none
  nextKey : Option (Option String) := none
deriving Repr, DecidableEq

/-- The empty wine state: no key present. -/
def emptyWineState : WineState := {}

/-- Merge of one key: a key present in the update overwrites, an absent key
leaves the current value untouched (last-value channel of an unannotated dict
schema; per-key dispatch modelled from the spec, section 4.1). -/
def mergeField {α : Type} (c u : Option α) : Option α :=
  match u with
  | some x => some x
  | none => c

/-- Merge of a wine node's partial update into the current state: every key of
the plain dict schema is overwriting. -/
def mergeWine (cur upd : WineState) : WineState where
  query := mergeField cur.query upd.query
  query_analysis := mergeField cur.query_analysis upd.query_analysis
  retrieved_chunks := mergeField cur.retrieved_chunks upd.retrieved_chunks
  text_sufficient := mergeField cur.text_sufficient upd.text_sufficient
  vector_matches := mergeField cur.vector_matches upd.vector_matches
  vision_chunks := mergeField cur.vision_chunks upd.vision_chunks
  vision_sufficient := mergeField cur.vision_sufficient upd.vision_sufficient
  ocr_chunks := mergeField cur.ocr_chunks upd.ocr_chunks
  no_answer := mergeField cur.no_answer upd.no_answer
  final_response := mergeField cur.final_response upd.final_response
  nextKey := mergeField cur.nextKey upd.nextKey

/-- Reading `state.get("__next__")` the way the wine routers do
(src/agent/wine_agents.py lines 442, 446, 450): an absent key and an explicit
`None` both read as `none`. -/
def readNext (s : WineState) : Option String :=
  match s.nextKey with
  | some v => v
  | none => none

/-- Embedding of `analyze_query_node` (src/agent/wine_agents.py lines
302-329): the LLM-produced analysis is the oracle argument (on an API failure
the code substitutes a fixed default, which is simply another oracle value);
the returned dict carries exactly the keys `query_analysis` and `query`, the
latter copied from the state (the code indexes `state["query"]`, which the
entry state supplies). -/
def analyze_query_node (analysis : String) (s : WineState) : WineState :=
  { query_analysis := some analysis, query := s.query }

/-- Embedding of `vector_search_node` (src/agent/wine_agents.py lines
331-345): the Pinecone matches are the oracle argument; the retrieved chunks
are the matches' texts, `text_sufficient` is their nonemptiness, and the
routing key is set to `answer_synthesis` when text sufficed, else
`vision_analysis`. -/
def vector_search_node (ms : List WineMatch) (s : WineState) : WineState :=
  let retrieved := ms.map (fun m => m.text)
  let textSufficient := !retrieved.isEmpty
  { query := s.query
    retrieved_chunks := some retrieved
    text_sufficient := some textSufficient
    vector_matches := some ms
    nextKey := some (some (if textSufficient then "answer_synthesis" else "vision_analysis")) }

/-- Embedding of `vision_analysis_node` (src/agent/wine_agents.py lines
347-363): the vision chunks are the texts of the stored matches whose
`doc_type` is `pptx`, and the routing key is `answer_synthesis` when any were
found, else `ocr_analysis`. -/
def vision_analysis_node (s : WineState) : WineState :=
  let visionChunks :=
    ((s.vector_matches.getD []).filter (fun m => m.docType == "pptx")).map (fun m => m.text)
  let visionSufficient := !visionChunks.isEmpty
  { query := s.query
    vision_chunks := some visionChunks
    vision_sufficient := some visionSufficient
    nextKey := some (some (if visionSufficient then "answer_synthesis" else "ocr_analysis")) }

/-- Embedding of `ocr_analysis_node` (src/agent/wine_agents.py lines 365-374):
the OCR chunks are again the texts of the stored `pptx` matches; this node sets
no routing key. -/
def ocr_analysis_node (s : WineState) : WineState :=
  let ocrChunks :=
    ((s.vector_matches.getD []).filter (fun m => m.docType == "pptx")).map (fun m => m.text)
  { query := s.query, ocr_chunks := some ocrChunks }

/-- Truthiness of a possibly-absent list field as Python's `or` sees it:
`None` and the empty list are both falsy. -/
def truthyChunks (o : Option (List String)) : Bool :=
  !(o.getD []).isEmpty

/-- Embedding of `answer_synthesis_node` (src/agent/wine_agents.py lines
376-422): the synthesized answer is the oracle argument (an API failure again
substitutes a fixed string, another oracle value); `no_answer` holds exactly
when the retrieved, vision and OCR chunk fields are all absent or empty, and
the routing key is then `fallback`, otherwise an explicit `None`. -/
def answer_synthesis_node (answer : String) (s : WineState) : WineState :=
  let noAnswer :=
    !(truthyChunks s.retrieved_chunks || truthyChunks s.vision_chunks
        || truthyChunks s.ocr_chunks)
  { no_answer := some noAnswer
    final_response := some answer
    nextKey := some (if noAnswer then some "fallback" else none) }

/-- Embedding of `fallback_node` (src/agent/wine_agents.py lines 424-425): a
constant update carrying only the apology response. -/
def fallback_node (_s : WineState) : WineState :=
  { final_response := some "Sorry, no answer could be generated from the available data." }

/-- Path map of the wine `vector_search` conditional edge
(src/agent/wine_agents.py lines 442-445); keys are the router's possible raw
values. -/
def wineVectorSearchMap : List (Option String × String) :=
  [(some "answer_synthesis", "answer_synthesis"), (some "vision_analysis", "vision_analysis")]

/-- Path map of the wine `vision_analysis` conditional edge
(src/agent/wine_agents.py lines 446-449). -/
def wineVisionMap : List (Option String × String) :=
  [(some "answer_synthesis", "answer_synthesis"), (some "ocr_analysis", "ocr_analysis")]

/-- Path map of the wine `answer_synthesis` conditional edge
(src/agent/wine_agents.py lines 450-453): the Python `None` key maps to the
terminal sentinel. -/
def wineAnswerSynthMap : List (Option String × String) :=
  [(some "fallback", "fallback"), (none, END)]

/-- C8: merge frame condition.  Every key absent from the update keeps exactly
its value from the current state; and, as the claim instantiates it, the later
wine nodes `answer_synthesis_node` and `fallback_node` omit the `query` key
from their updates, so merging their outputs leaves `query` unchanged. -/
theorem C8_merge_frame (cur upd : WineState) :
    (upd.query = none → (mergeWine cur upd).query = cur.query)
    ∧ (upd.query_analysis = none → (mergeWine cur upd).query_analysis = cur.query_analysis)
    ∧ (upd.retrieved_chunks = none → (mergeWine cur upd).retrieved_chunks = cur.retrieved_chunks)
    ∧ (upd.text_sufficient = none → (mergeWine cur upd).text_sufficient = cur.text_sufficient)
    ∧ (upd.vector_matches = none → (mergeWine cur upd).vector_matches = cur.vector_matches)
    ∧ (upd.vision_chunks = none → (mergeWine cur upd).vision_chunks = cur.vision_chunks)
    ∧ (upd.vision_sufficient = none → (mergeWine cur upd).vision_sufficient = cur.vision_sufficient)
    ∧ (upd.ocr_chunks = none → (mergeWine cur upd).ocr_chunks = cur.ocr_chunks)
    ∧ (upd.no_answer = none → (mergeWine cur upd).no_answer = cur.no_answer)
    ∧ (upd.final_response = none → (mergeWine cur upd).final_response = cur.final_response)
    ∧ (upd.nextKey = none → (mergeWine cur upd).nextKey = cur.nextKey)
    ∧ (∀ answer : String, (answer_synthesis_node answer cur).query = none)
    ∧ (fallback_node cur).query = none
    ∧ (mergeWine cur (fallback_node cur)).query = cur.query := by
  refine ⟨?_, ?_, ?_, ?_, ?_, ?_, ?_, ?_, ?_, ?_, ?_, fun _ => rfl, rfl, rfl⟩
  all_goals intro h
  all_goals simp [mergeWine, mergeField, h]

/-- Witness for C8: a concrete state with `query` set by the first node, merged
with the fallback node's update, which omits `query`. -/
theorem C8_merge_frame_witness :
    (mergeWine { query := some "best red wine" } (fallback_node { query := some "best red wine" })).query
      = some "best red wine" := by
  have h := C8_merge_frame { query := some "best red wine" }
      (fallback_node { query := some "best red wine" })
  exact h.1 rfl

/-- C9: answer-synthesis routing.  The routing key is written as `fallback`
exactly when the retrieved, vision and OCR chunk fields are all absent or
empty; otherwise it is written as an explicit no-value, which the conditional
edge's path map sends to the terminal sentinel; and the fallback node is a
constant update that overwrites `final_response` with the fixed apology string
whatever the state holds. -/
theorem C9_answer_synthesis_routing (s : WineState) (answer : String) :
    ((answer_synthesis_node answer s).nextKey = some (some "fallback")
      ↔ (s.retrieved_chunks.getD [] = [] ∧ s.vision_chunks.getD [] = []
          ∧ s.ocr_chunks.getD [] = []))
    ∧ ((answer_synthesis_node answer s).nextKey = some none
      ↔ ¬(s.retrieved_chunks.getD [] = [] ∧ s.vision_chunks.getD [] = []
          ∧ s.ocr_chunks.getD [] = []))
    ∧ wineAnswerSynthMap.lookup (none : Option String) = some END
    ∧ fallback_node s
        = { final_response := some "Sorry, no answer could be generated from the available data." }
    ∧ (mergeWine s (fallback_node s)).final_response
        = some "Sorry, no answer could be generated from the available data." := by
  refine ⟨?_, ?_, rfl, rfl, rfl⟩
  · simp [answer_synthesis_node, truthyChunks, List.isEmpty_iff]
  · simp [answer_synthesis_node, truthyChunks, List.isEmpty_iff]

/-- Embedding of the `WineRAGConfig` fields that `VectorStore` consumes
(src/agent/wine_agents.py lines 17-25, 128-135). -/
structure WineRAGConfig where
  openai_api_key : String
  pinecone_api_key : String
  index_name : String
  embedding_model : String
deriving Repr, DecidableEq

/-- Embedding of a constructed `VectorStore` (src/agent/wine_agents.py lines
128-135): the instance records the config it was built from; the embeddings
client and Pinecone index are functions of that config's fields. -/
structure VectorStore where
  config : WineRAGConfig
deriving Repr, DecidableEq

/-- Embedding of `get_vector_store` (src/agent/wine_agents.py lines 116-126):
the module-global `_vector_store_instance` is threaded explicitly; when it is
unset a `VectorStore` is built from the argument config and cached, otherwise
the cached instance is returned and the argument config plays no part.  The
double-checked lock protects only the assignment and does not alter the value
computed. -/
def get_vector_store (inst : Option VectorStore) (config : WineRAGConfig) :
    VectorStore × Option VectorStore :=
  match inst with
  | some v => (v, some v)
  | none => (⟨config⟩, some ⟨config⟩)

/-- C10: `get_vector_store` is idempotent per process.  The first call builds
the instance from its config; every later call returns that exact instance
unchanged while its own config argument is ignored, so two calls with different
configs yield the identical object built from the first call's config. -/
theorem C10_get_vector_store_idempotent (c1 c2 : WineRAGConfig) :
    (get_vector_store none c1).1 = ⟨c1⟩
    ∧ (get_vector_store (get_vector_store none c1).2 c2).1 = (get_vector_store none c1).1
    ∧ (get_vector_store (get_vector_store none c1).2 c2).1
        = (get_vector_store (get_vector_store none c1).2 c1).1
    ∧ (∀ v : VectorStore, get_vector_store (some v) c2 = (v, some v)) := by
  exact ⟨rfl, rfl, rfl, fun v => rfl⟩

/-- Modelled from the spec (section 7): the executor error taxonomy, restricted
to the two cases the claims exercise — a malformed-graph configuration error
and the distinct cycle-budget error. -/
inductive ExecError where
  | configurationError : ExecError
  | cycleBudgetExceeded : ExecError
deriving Repr, DecidableEq

/-- Modelled from the spec (section 4.3): resolution of a conditional edge —
the router's raw value is looked up in the declared path map; an out-of-map
value is a configuration error, never silently treated as terminal. -/
def resolveConditional (pathMap : List (Option String × String)) (v : Option String) :
    Except ExecError String :=
  match pathMap.lookup v with
  | some t => .ok t
  | none => .error .configurationError

/-- Modelled from the spec (section 3): one outgoing rule of a node — a static
edge with a fixed target, or a conditional edge with a state-dependent router
and a declared path map.  A target equal to `END` is the TERMINAL sentinel. -/
inductive GraphEdge (σ : Type) where
  | static : String → GraphEdge σ
  | cond : (σ → Option String) → List (Option String × String) → GraphEdge σ

/-- Modelled from the spec (sections 3 and 6): a compiled graph — the entry
node, the node map, the edge map (first match wins on lookup), the merge rule,
the empty state a fresh thread starts from, and whether a checkpointer was
supplied at compile time. -/
structure CompiledGraph (σ υ : Type) where
  entry : String
  nodes : List (String × (σ → υ))
  edges : List (String × GraphEdge σ)
  merge : σ → υ → σ
  empty : σ
  hasCheckpointer : Bool

/-- Modelled from the spec (section 3): a checkpoint row — the saved state plus
the pending node, `none` once the thread has terminated. -/
structure Checkpoint (σ : Type) where
  state : σ
  pending : Option String

/-- Modelled from the spec (section 4.5): the in-process checkpoint store,
keyed by thread id; the most recent save for a thread id shadows older ones. -/
abbrev CheckpointStore (σ : Type) := List (String × Checkpoint σ)

/-- Read a thread's checkpoint row. -/
def storeGet {σ : Type} (store : CheckpointStore σ) (tid : String) : Option (Checkpoint σ) :=
  store.lookup tid

/-- Save a thread's checkpoint row. -/
def storeSet {σ : Type} (store : CheckpointStore σ) (tid : String) (cp : Checkpoint σ) :
    CheckpointStore σ :=
  (tid, cp) :: store

/-- Modelled from the spec (section 4.3): resolve the successor of `n` on state
`s`; a node with no outgoing edge is a configuration error. -/
def resolveNext {σ υ : Type} (g : CompiledGraph σ υ) (n : String) (s : σ) :
    Except ExecError String :=
  match g.edges.lookup n with
  | some (.static t) => .ok t
  | some (.cond router pathMap) => resolveConditional pathMap (router s)
  | none => .error .configurationError

/-- Outcome of a run: the thread terminated with a final state, or failed with
a typed error and the state at failure. -/
inductive RunStatus (σ : Type) where
  | terminated : σ → RunStatus σ
  | failed : ExecError → σ → RunStatus σ

/-- Modelled from the spec (section 4.4, Step): execute the current node, merge
its output, resolve the successor, and — when a checkpointer is configured —
persist the merged state with the pending successor before anything else runs.
An `inl` result ends the run; an `inr` result carries the next node, the merged
state, and the updated store. -/
def execStep {σ υ : Type} (g : CompiledGraph σ υ) (tid n : String) (s : σ)
    (store : CheckpointStore σ) :
    (RunStatus σ × CheckpointStore σ) ⊕ (String × σ × CheckpointStore σ) :=
  match g.nodes.lookup n with
  | none => .inl (.failed .configurationError s, store)
  | some fn =>
    let s2 := g.merge s (fn s)
    match resolveNext g n s2 with
    | .error e => .inl (.failed e s2, store)
    | .ok t =>
      if t = END then
        .inl (.terminated s2,
          if g.hasCheckpointer then storeSet store tid ⟨s2, none⟩ else store)
      else
        .inr (t, s2,
          if g.hasCheckpointer then storeSet store tid ⟨s2, some t⟩ else store)

/-- Modelled from the spec (section 4.4): the run loop under a step budget;
exhausting the budget fails with the distinct cycle-budget error.  The third
component is the trace of executed node names in order. -/
def runLoop {σ υ : Type} (g : CompiledGraph σ υ) (tid : String) :
    Nat → String → σ → CheckpointStore σ →
      RunStatus σ × CheckpointStore σ × List String
  | 0, _, s, store => (.failed .cycleBudgetExceeded s, store, [])
  | fuel + 1, n, s, store =>
    match execStep g tid n s store with
    | .inl (r, store2) => (r, store2, [n])
    | .inr (n2, s2, store2) =>
      let res := runLoop g tid fuel n2 s2 store2
      (res.1, res.2.1, n :: res.2.2)

/-- Modelled from the spec (section 4.4, On run and the idempotence note): load
the thread's checkpoint; a terminated thread re-run with no new input returns
the stored final state and executes nothing; otherwise resume at the pending
node with the saved state (merging any new input), or start at `entry` from the
empty state for a fresh thread. -/
def run {σ υ : Type} (g : CompiledGraph σ υ) (budget : Nat) (tid : String)
    (input : Option υ) (store : CheckpointStore σ) :
    RunStatus σ × CheckpointStore σ × List String :=
  match storeGet store tid with
  | some cp =>
    match cp.pending, input with
    | none, none => (.terminated cp.state, store, [])
    | none, some u => runLoop g tid budget g.entry (g.merge cp.state u) store
    | some n, none => runLoop g tid budget n cp.state store
    | some n, some u => runLoop g tid budget n (g.merge cp.state u) store
  | none =>
    let s0 :=
      match input with
      | some u => g.merge g.empty u
      | none => g.empty
    runLoop g tid budget g.entry s0 store

/-- Modelled from the spec: `agent_node` is imported from
app/src/utils/event_scheduler_function.py, a file absent from the sources; per
the node contract (spec section 4.2) it wraps an agent and returns a fresh
partial update holding the agent's single reply on the accumulating `messages`
key and touching no other key.  The reply text is the agent's (LLM-driven)
output, an oracle. -/
def agent_node (reply : Message) : AgentStateUpdate :=
  ⟨[reply], none⟩

/-- Embedding of `supervisor_chain`
(src/app/src/utils/event_scheduler_supervisor.py lines 97-104): the prompted
model, bound to the `route` function and parsed by the JSON function parser,
yields an update carrying only the overwriting key `next`; the function schema
(`function_def`, lines 64-80) constrains the choice to `options`, which line 62
makes equal to `members`. -/
def supervisor_chain (choice : String) : AgentStateUpdate :=
  ⟨[], some (some choice)⟩

/-- Embedding of `greeting_chain`
(src/app/src/utils/event_scheduler_supervisor.py lines 41-48): as for the
supervisor, an update carrying only `next`, with the choice constrained by the
first `function_def` (lines 11-27) to `greetingOptions`. -/
def greeting_chain (choice : String) : AgentStateUpdate :=
  ⟨[], some (some choice)⟩

/-- The greeting path map with keys as raw router values (the router reads the
string `x["next"]`). -/
def greetingCondMapO : List (Option String × String) :=
  greetingConditionalMap.map (fun p => (some p.1, p.2))

/-- The supervisor path map with keys as raw router values. -/
def conditionalMapO : List (Option String × String) :=
  conditional_map.map (fun p => (some p.1, p.2))

/-- The event-scheduler graph (src/app/graph/event_scheduler_graph.py lines
53-83) as a compiled graph.  The LLM-driven parts are oracles: `reply n` is the
message produced by agent node `n`, and `supChoice` and `greetChoice` are the
two chains' routing choices.  The edge list follows construction order;
`greet_agent` genuinely carries two static-edge entries (lines 69-70), of which
the sequential executor's lookup sees the first.  The graph is compiled with
the `MemorySaver` checkpointer (lines 23 and 83). -/
def eventSchedulerGraph (reply : String → Message) (supChoice greetChoice : String) :
    CompiledGraph AgentState AgentStateUpdate where
  entry := "supervisor"
  nodes :=
    [("comparison", fun _ => agent_node (reply "comparison")),
     ("colortrend", fun _ => agent_node (reply "colortrend")),
     ("greeting_chain", fun _ => greeting_chain greetChoice),
     ("greet_agent", fun _ => agent_node (reply "greet_agent")),
     ("supervisor", fun _ => supervisor_chain supChoice),
     ("prechat_agent", fun _ => agent_node (reply "prechat_agent")),
     ("feedback_agent", fun _ => agent_node (reply "feedback_agent")),
     ("scheduler_agent", fun _ => agent_node (reply "scheduler_agent")),
     ("fallback_agent", fun _ => agent_node (reply "fallback_agent"))]
  edges :=
    ((members.filter (fun m => m ≠ "greeting_chain")).map
        (fun m => (m, GraphEdge.static END)))
      ++ [("greet_agent", .static END), ("greet_agent", .static "greeting_chain"),
          ("greeting_chain", .cond (fun s => s.next) greetingCondMapO),
          ("supervisor", .cond (fun s => s.next) conditionalMapO)]
  merge := mergeAgentState
  empty := ⟨[], none⟩
  hasCheckpointer := true

/-- The wine pipeline (src/agent/wine_agents.py lines 428-454) as a compiled
graph: oracles are the analysis JSON, the synthesized answer, and the Pinecone
matches.  Construction order is kept; `vision_analysis` carries both the static
edge of line 438 and the conditional edge of line 446, of which the sequential
executor's lookup sees the first.  `compile()` at line 454 is called without a
checkpointer. -/
def wineGraph (analysis answer : String) (ms : List WineMatch) :
    CompiledGraph WineState WineState where
  entry := "analyze_query"
  nodes :=
    [("analyze_query", analyze_query_node analysis),
     ("vector_search", vector_search_node ms),
     ("vision_analysis", vision_analysis_node),
     ("ocr_analysis", ocr_analysis_node),
     ("answer_synthesis", answer_synthesis_node answer),
     ("fallback", fallback_node)]
  edges :=
    [("analyze_query", .static "vector_search"),
     ("vision_analysis", .static "ocr_analysis"),
     ("ocr_analysis", .static "answer_synthesis"),
     ("fallback", .static END),
     ("vector_search", .cond readNext wineVectorSearchMap),
     ("vision_analysis", .cond readNext wineVisionMap),
     ("answer_synthesis", .cond readNext wineAnswerSynthMap)]
  merge := mergeWine
  empty := emptyWineState
  hasCheckpointer := false

/-- The thread id the `/interact/` route hard-codes for every caller
(src/app/src/api/mail_routes.py line 18). -/
def interactThreadId : String := "1"

/-- C4: idempotent re-run.  For the event-scheduler graph, re-invoking `run` on
a thread whose checkpoint records a terminated execution (no pending node) with
no new input returns exactly the stored final state, leaves the store
untouched, and executes no node (the trace is empty). -/
theorem C4_idempotent_rerun (reply : String → Message) (supChoice greetChoice : String)
    (budget : Nat) (tid : String) (store : CheckpointStore AgentState)
    (cp : Checkpoint AgentState)
    (h1 : storeGet store tid = some cp) (h2 : cp.pending = none) :
    run (eventSchedulerGraph reply supChoice greetChoice) budget tid none store
      = (.terminated cp.state, store, []) := by
  simp [run, h1, h2]

/-- Witness for C4: a store holding a terminated checkpoint for thread `1`. -/
theorem C4_idempotent_rerun_witness :
    run (eventSchedulerGraph (fun _ => "ok") "comparison" "FINISH") 25 "1" none
        [("1", ⟨⟨["done"], none⟩, none⟩)]
      = (.terminated ⟨["done"], none⟩, [("1", ⟨⟨["done"], none⟩, none⟩)], []) :=
  C4_idempotent_rerun (fun _ => "ok") "comparison" "FINISH" 25 "1"
    [("1", ⟨⟨["done"], none⟩, none⟩)] ⟨⟨["done"], none⟩, none⟩ rfl rfl

/-- C2: router validity.  Any supervisor choice within the declared function
schema (`members`) lands, after the merge, in the supervisor router's value and
is a key of its path map; likewise for the greeting chain over its options; the
three wine routers, reading `__next__` from the state just merged with their
node's own output, always find their value in their declared path maps; and
conditional resolution turns an out-of-map value into a configuration error —
it never yields the terminal sentinel unless the map itself declares it. -/
theorem C2_router_validity
    (s : AgentState) (pre : WineState) (ms : List WineMatch)
    (answerOracle supChoice greetChoice : String)
    (pm : List (Option String × String)) (v : Option String) :
    (supChoice ∈ members →
        (mergeAgentState s (supervisor_chain supChoice)).next = some supChoice
        ∧ (conditionalMapO.lookup (some supChoice)).isSome = true)
    ∧ (greetChoice ∈ greetingOptions →
        (mergeAgentState s (greeting_chain greetChoice)).next = some greetChoice
        ∧ (greetingCondMapO.lookup (some greetChoice)).isSome = true)
    ∧ (wineVectorSearchMap.lookup
        (readNext (mergeWine pre (vector_search_node ms pre)))).isSome = true
    ∧ (wineVisionMap.lookup
        (readNext (mergeWine pre (vision_analysis_node pre)))).isSome = true
    ∧ (wineAnswerSynthMap.lookup
        (readNext (mergeWine pre (answer_synthesis_node answerOracle pre)))).isSome = true
    ∧ (pm.lookup v = none → resolveConditional pm v = .error .configurationError)
    ∧ (resolveConditional pm v = .ok END → pm.lookup v = some END) := by
  refine ⟨?_, ?_, ?_, ?_, ?_, ?_, ?_⟩
  · intro h
    refine ⟨rfl, ?_⟩
    simp only [members, List.mem_cons, List.not_mem_nil, or_false] at h
    rcases h with rfl | rfl | rfl | rfl | rfl | rfl | rfl <;> decide
  · intro h
    refine ⟨rfl, ?_⟩
    simp only [greetingOptions, List.mem_cons, List.not_mem_nil, or_false] at h
    rcases h with rfl | rfl | rfl <;> decide
  · simp only [vector_search_node, mergeWine, mergeField, readNext]
    split <;> decide
  · simp only [vision_analysis_node, mergeWine, mergeField, readNext]
    split <;> decide
  · simp only [answer_synthesis_node, mergeWine, mergeField, readNext]
    split <;> decide
  · intro h
    simp [resolveConditional, h]
  · intro h
    cases heq : pm.lookup v with
    | none => simp [resolveConditional, heq] at h
    | some t =>
      simp [resolveConditional, heq] at h
      rw [h]

/-- Witness for C2 at concrete choices: the supervisor choosing `comparison`,
the greeting chain choosing `FINISH`, the wine search with an empty match list,
and an undeclared router value failing fast. -/
theorem C2_router_validity_witness :
    (mergeAgentState ⟨[], none⟩ (supervisor_chain "comparison")).next = some "comparison"
    ∧ (conditionalMapO.lookup (some "comparison")).isSome = true
    ∧ (greetingCondMapO.lookup (some "FINISH")).isSome = true
    ∧ (wineVectorSearchMap.lookup
        (readNext (mergeWine emptyWineState (vector_search_node [] emptyWineState)))).isSome = true
    ∧ resolveConditional wineAnswerSynthMap (some "nope") = .error .configurationError := by
  have h := C2_router_validity ⟨[], none⟩ emptyWineState [] "a" "comparison" "FINISH"
      wineAnswerSynthMap (some "nope")
  exact ⟨(h.1 (by decide)).1, (h.1 (by decide)).2, (h.2.1 (by decide)).2, h.2.2.1,
    h.2.2.2.2.2.1 (by decide)⟩

/-- C3, as amended: in a graph compiled with a checkpointer, whenever a step
hands control from one node to the next, the executed node's output has been
merged and the store already holds that merged state with the successor
pending; resuming that thread with no new input continues exactly at the
successor with the saved state, so the completed node is not re-executed.  The
event-scheduler graph is compiled with such a checkpointer. -/
theorem C3_checkpoint_after_each_step {σ υ : Type} (g : CompiledGraph σ υ)
    (tid n n2 : String) (s s2 : σ) (store store2 : CheckpointStore σ) (budget : Nat)
    (hc : g.hasCheckpointer = true)
    (h : execStep g tid n s store = .inr (n2, s2, store2)) :
    (∃ fn, g.nodes.lookup n = some fn ∧ s2 = g.merge s (fn s))
    ∧ storeGet store2 tid = some ⟨s2, some n2⟩
    ∧ run g budget tid none store2 = runLoop g tid budget n2 s2 store2
    ∧ (∀ r sc gc, (eventSchedulerGraph r sc gc).hasCheckpointer = true) := by
  cases hfn : g.nodes.lookup n with
  | none => simp [execStep, hfn] at h
  | some fn =>
    cases hres : resolveNext g n (g.merge s (fn s)) with
    | error e => simp [execStep, hfn, hres] at h
    | ok t =>
      by_cases ht : t = END
      · simp [execStep, hfn, hres, ht] at h
      · simp only [execStep, hfn, hres, ht, hc, ite_true, ite_false, if_true, if_false,
          Sum.inr.injEq, Prod.mk.injEq] at h
        obtain ⟨rfl, rfl, rfl⟩ := h
        refine ⟨⟨fn, rfl, rfl⟩, ?_, ?_, fun r sc gc => rfl⟩
        · simp [storeGet, storeSet, List.lookup]
        · simp [run, storeGet, storeSet, List.lookup]

/-- Witness for C3 at a concrete step of the event-scheduler graph: the
supervisor runs first, routes to `comparison`, and the store then holds the
merged state with `comparison` pending. -/
theorem C3_checkpoint_after_each_step_witness :
    (∃ fn, (eventSchedulerGraph (fun _ => "m") "comparison" "FINISH").nodes.lookup
          "supervisor" = some fn
        ∧ (⟨[], some "comparison"⟩ : AgentState)
            = (eventSchedulerGraph (fun _ => "m") "comparison" "FINISH").merge
                ⟨[], none⟩ (fn ⟨[], none⟩))
    ∧ storeGet [("1", (⟨⟨[], some "comparison"⟩, some "comparison"⟩ : Checkpoint AgentState))]
        "1" = some ⟨⟨[], some "comparison"⟩, some "comparison"⟩
    ∧ run (eventSchedulerGraph (fun _ => "m") "comparison" "FINISH") 25 "1" none
          [("1", ⟨⟨[], some "comparison"⟩, some "comparison"⟩)]
        = runLoop (eventSchedulerGraph (fun _ => "m") "comparison" "FINISH") "1" 25
            "comparison" ⟨[], some "comparison"⟩
            [("1", ⟨⟨[], some "comparison"⟩, some "comparison"⟩)]
    ∧ (∀ r sc gc, (eventSchedulerGraph r sc gc).hasCheckpointer = true) :=
  C3_checkpoint_after_each_step (eventSchedulerGraph (fun _ => "m") "comparison" "FINISH")
    "1" "supervisor" "comparison" ⟨[], none⟩ ⟨[], some "comparison"⟩ []
    [("1", ⟨⟨[], some "comparison"⟩, some "comparison"⟩)] 25 rfl rfl

/-- Counterexample for C3 as stated: the wine graph is compiled with no
checkpointer (src/agent/wine_agents.py line 454), so after its first node's
output is merged and control passes to `vector_search`, the checkpoint store —
here empty, under thread id `t` — still holds nothing: the claim's
write-after-every-step discipline fails for the wine graph instance. -/
theorem C3_no_checkpoint_for_wine_graph :
    (wineGraph "a" "b" []).hasCheckpointer = false
    ∧ execStep (wineGraph "a" "b" []) "t" "analyze_query"
        (mergeWine emptyWineState { query := some "q" }) []
      = .inr ("vector_search",
          mergeWine (mergeWine emptyWineState { query := some "q" })
            (analyze_query_node "a" (mergeWine emptyWineState { query := some "q" })),
          [])
    ∧ storeGet ([] : CheckpointStore WineState) "t" = none :=
  ⟨rfl, rfl, rfl⟩

/-- Helper for the cycle guard: from any node of an invariant set `A` whose
members all exist and always route onward into `A` without ever reaching the
terminal sentinel, the loop burns its whole budget, executes exactly `budget`
nodes, and fails with the distinct cycle-budget error. -/
lemma runLoop_cycle {σ υ : Type} (g : CompiledGraph σ υ) (tid : String)
    (A : List String)
    (hA : ∀ n ∈ A, ∃ fn, g.nodes.lookup n = some fn)
    (hstep : ∀ n ∈ A, ∀ s : σ, ∃ n2, n2 ∈ A ∧ n2 ≠ END ∧ resolveNext g n s = .ok n2) :
    ∀ (budget : Nat) (n : String), n ∈ A → ∀ (s : σ) (store : CheckpointStore σ),
      (∃ sfin, (runLoop g tid budget n s store).1 = .failed .cycleBudgetExceeded sfin)
      ∧ (runLoop g tid budget n s store).2.2.length = budget := by
  intro budget
  induction budget with
  | zero => intro n hn s store; exact ⟨⟨s, rfl⟩, rfl⟩
  | succ k ih =>
    intro n hn s store
    obtain ⟨fn, hfn⟩ := hA n hn
    obtain ⟨n2, hn2A, hn2E, hres⟩ := hstep n hn (g.merge s (fn s))
    have hstepEq : execStep g tid n s store
        = .inr (n2, g.merge s (fn s),
            if g.hasCheckpointer then storeSet store tid ⟨g.merge s (fn s), some n2⟩
            else store) := by
      simp [execStep, hfn, hres, hn2E]
    rcases ih n2 hn2A (g.merge s (fn s))
        (if g.hasCheckpointer then storeSet store tid ⟨g.merge s (fn s), some n2⟩ else store)
      with ⟨⟨sfin, hs⟩, hlen⟩
    constructor
    · exact ⟨sfin, by simp only [runLoop, hstepEq]; exact hs⟩
    · simp only [runLoop, hstepEq, List.length_cons]
      rw [hlen]

/-- C5: cycle guard.  For every graph that keeps routing inside a set of nodes
whose conditional resolution never yields the terminal sentinel, a `run` call
on a fresh thread executes exactly the configured step budget of node
executions — in particular at most the budget, so it never hangs — and fails
with the distinct cycle-budget error. -/
theorem C5_cycle_guard {σ υ : Type} (g : CompiledGraph σ υ) (tid : String)
    (A : List String) (budget : Nat) (input : Option υ) (store : CheckpointStore σ)
    (hA : ∀ n ∈ A, ∃ fn, g.nodes.lookup n = some fn)
    (hstep : ∀ n ∈ A, ∀ s : σ, ∃ n2, n2 ∈ A ∧ n2 ≠ END ∧ resolveNext g n s = .ok n2)
    (hentry : g.entry ∈ A) (hfresh : storeGet store tid = none) :
    (∃ sfin, (run g budget tid input store).1 = .failed .cycleBudgetExceeded sfin)
    ∧ (run g budget tid input store).2.2.length = budget := by
  have h := runLoop_cycle g tid A hA hstep budget g.entry hentry
  cases input with
  | none => simpa [run, hfresh] using h g.empty store
  | some u => simpa [run, hfresh] using h (g.merge g.empty u) store

/-- A two-node graph whose conditional edges route to each other forever: the
spec's P5 scenario, instantiated over the event-scheduler state type. -/
def pingPongGraph : CompiledGraph AgentState AgentStateUpdate where
  entry := "ping"
  nodes := [("ping", fun _ => agent_node "ping"), ("pong", fun _ => agent_node "pong")]
  edges := [("ping", .cond (fun _ => some "pong") [(some "pong", "pong")]),
            ("pong", .cond (fun _ => some "ping") [(some "ping", "ping")])]
  merge := mergeAgentState
  empty := ⟨[], none⟩
  hasCheckpointer := false

/-- Witness for C5: the two mutually routing conditional edges of
`pingPongGraph` exhaust a budget of seven steps and fail with the cycle-budget
error. -/
theorem C5_cycle_guard_witness :
    (∃ sfin, (run pingPongGraph 7 "t" none []).1
        = .failed .cycleBudgetExceeded sfin)
    ∧ (run pingPongGraph 7 "t" none []).2.2.length = 7 := by
  refine C5_cycle_guard pingPongGraph "t" ["ping", "pong"] 7 none [] ?_ ?_ ?_ rfl
  · intro n hn
    fin_cases hn
    · exact ⟨_, rfl⟩
    · exact ⟨_, rfl⟩
  · intro n hn s
    fin_cases hn
    · exact ⟨"pong", by decide, by decide, rfl⟩
    · exact ⟨"ping", by decide, by decide, rfl⟩
  · decide

/-- Helper for noninterference: the status and the trace of the run loop do not
depend on the checkpoint store at all — the store is only written to. -/
lemma runLoop_status_trace_indep {σ υ : Type} (g : CompiledGraph σ υ) (tid : String) :
    ∀ (fuel : Nat) (n : String) (s : σ) (store store' : CheckpointStore σ),
      (runLoop g tid fuel n s store).1 = (runLoop g tid fuel n s store').1
      ∧ (runLoop g tid fuel n s store).2.2 = (runLoop g tid fuel n s store').2.2 := by
  intro fuel
  induction fuel with
  | zero => intro n s store store'; exact ⟨rfl, rfl⟩
  | succ k ih =>
    intro n s store store'
    cases hfn : g.nodes.lookup n with
    | none => simp [runLoop, execStep, hfn]
    | some fn =>
      cases hres : resolveNext g n (g.merge s (fn s)) with
      | error e => simp [runLoop, execStep, hfn, hres]
      | ok t =>
        by_cases ht : t = END
        · simp [runLoop, execStep, hfn, hres, ht]
        · have h := ih t (g.merge s (fn s))
            (if g.hasCheckpointer then storeSet store tid ⟨g.merge s (fn s), some t⟩
              else store)
            (if g.hasCheckpointer then storeSet store' tid ⟨g.merge s (fn s), some t⟩
              else store')
          simp only [runLoop, execStep, hfn, hres, ht, ite_false, if_false]
          exact ⟨h.1, by rw [h.2]⟩

/-- Helper for noninterference: the run loop for a thread id writes no other
thread's checkpoint row. -/
lemma runLoop_store_other {σ υ : Type} (g : CompiledGraph σ υ) (tid t : String)
    (hne : t ≠ tid) :
    ∀ (fuel : Nat) (n : String) (s : σ) (store : CheckpointStore σ),
      storeGet (runLoop g tid fuel n s store).2.1 t = storeGet store t := by
  have hset : ∀ (store : CheckpointStore σ) (cp : Checkpoint σ),
      storeGet (storeSet store tid cp) t = storeGet store t := by
    intro store cp
    have hb : (t == tid) = false := beq_eq_false_iff_ne.mpr hne
    simp [storeGet, storeSet, List.lookup, hb]
  intro fuel
  induction fuel with
  | zero => intro n s store; rfl
  | succ k ih =>
    intro n s store
    cases hfn : g.nodes.lookup n with
    | none => simp [runLoop, execStep, hfn]
    | some fn =>
      cases hres : resolveNext g n (g.merge s (fn s)) with
      | error e => simp [runLoop, execStep, hfn, hres]
      | ok tg =>
        by_cases ht : tg = END
        · cases hc : g.hasCheckpointer with
          | false => simp [runLoop, execStep, hfn, hres, ht, hc]
          | true => simp [runLoop, execStep, hfn, hres, ht, hc, hset]
        · cases hc : g.hasCheckpointer with
          | false =>
            simp only [runLoop, execStep, hfn, hres, ht, hc, ite_false, if_false,
              Bool.false_eq_true]
            exact ih tg (g.merge s (fn s)) store
          | true =>
            simp only [runLoop, execStep, hfn, hres, ht, hc, ite_true, if_true,
              ite_false, if_false]
            rw [ih tg (g.merge s (fn s)) (storeSet store tid ⟨g.merge s (fn s), some tg⟩)]
            exact hset store ⟨g.merge s (fn s), some tg⟩

/-- Helper for noninterference: a whole `run` for a thread id leaves every
other thread's checkpoint row exactly as it was. -/
lemma run_store_other {σ υ : Type} (g : CompiledGraph σ υ) (budget : Nat)
    (tid t : String) (hne : t ≠ tid) (input : Option υ) (store : CheckpointStore σ) :
    storeGet (run g budget tid input store).2.1 t = storeGet store t := by
  cases hcp : storeGet store tid with
  | none =>
    cases input with
    | none => simpa [run, hcp] using runLoop_store_other g tid t hne budget g.entry g.empty store
    | some u =>
      simpa [run, hcp] using
        runLoop_store_other g tid t hne budget g.entry (g.merge g.empty u) store
  | some cp =>
    cases hp : cp.pending with
    | none =>
      cases input with
      | none => simp [run, hcp, hp]
      | some u =>
        simpa [run, hcp, hp] using
          runLoop_store_other g tid t hne budget g.entry (g.merge cp.state u) store
    | some n =>
      cases input with
      | none => simpa [run, hcp, hp] using runLoop_store_other g tid t hne budget n cp.state store
      | some u =>
        simpa [run, hcp, hp] using
          runLoop_store_other g tid t hne budget n (g.merge cp.state u) store

/-- Helper for noninterference: the status and trace of a `run` depend on the
checkpoint store only through the running thread's own row. -/
lemma run_depends_own_row {σ υ : Type} (g : CompiledGraph σ υ) (budget : Nat)
    (tid : String) (input : Option υ) (store1 store2 : CheckpointStore σ)
    (h : storeGet store1 tid = storeGet store2 tid) :
    (run g budget tid input store1).1 = (run g budget tid input store2).1
    ∧ (run g budget tid input store1).2.2 = (run g budget tid input store2).2.2 := by
  cases hcp : storeGet store2 tid with
  | none =>
    rw [hcp] at h
    cases input with
    | none =>
      simpa [run, h, hcp] using
        runLoop_status_trace_indep g tid budget g.entry g.empty store1 store2
    | some u =>
      simpa [run, h, hcp] using
        runLoop_status_trace_indep g tid budget g.entry (g.merge g.empty u) store1 store2
  | some cp =>
    rw [hcp] at h
    cases hp : cp.pending with
    | none =>
      cases input with
      | none => simp [run, h, hcp, hp]
      | some u =>
        simpa [run, h, hcp, hp] using
          runLoop_status_trace_indep g tid budget g.entry (g.merge cp.state u) store1 store2
    | some n =>
      cases input with
      | none =>
        simpa [run, h, hcp, hp] using
          runLoop_status_trace_indep g tid budget n cp.state store1 store2
      | some u =>
        simpa [run, h, hcp, hp] using
          runLoop_status_trace_indep g tid budget n (g.merge cp.state u) store1 store2

/-- C7: thread noninterference.  Two runs of any compiled graph under distinct
thread identifiers never share mutable state: a run under one thread id leaves
the other thread's checkpoint row untouched, and the other thread's subsequent
run — its status and its trace of executed nodes — is identical whether or not
the first run happened.  The `/interact/` route, meanwhile, pins every caller
to the single hard-coded thread id `1`. -/
theorem C7_thread_noninterference {σ υ : Type} (g : CompiledGraph σ υ)
    (b1 b2 : Nat) (t1 t2 : String) (i1 i2 : Option υ) (store : CheckpointStore σ)
    (hne : t1 ≠ t2) :
    storeGet (run g b2 t2 i2 store).2.1 t1 = storeGet store t1
    ∧ (run g b1 t1 i1 (run g b2 t2 i2 store).2.1).1 = (run g b1 t1 i1 store).1
    ∧ (run g b1 t1 i1 (run g b2 t2 i2 store).2.1).2.2 = (run g b1 t1 i1 store).2.2
    ∧ interactThreadId = "1" := by
  have hrow := run_store_other g b2 t2 t1 hne i2 store
  have hdep := run_depends_own_row g b1 t1 i1 ((run g b2 t2 i2 store).2.1) store hrow
  exact ⟨hrow, hdep.1, hdep.2, rfl⟩

/-- Witness for C7: thread `1` (the `/interact/` thread) and a distinct thread
`2` on the event-scheduler graph. -/
theorem C7_thread_noninterference_witness :
    storeGet (run (eventSchedulerGraph (fun n => n) "comparison" "FINISH") 3 "2" none []).2.1
        "1" = storeGet ([] : CheckpointStore AgentState) "1"
    ∧ (run (eventSchedulerGraph (fun n => n) "comparison" "FINISH") 3 "1" none
          (run (eventSchedulerGraph (fun n => n) "comparison" "FINISH") 3 "2" none []).2.1).1
        = (run (eventSchedulerGraph (fun n => n) "comparison" "FINISH") 3 "1" none []).1
    ∧ (run (eventSchedulerGraph (fun n => n) "comparison" "FINISH") 3 "1" none
          (run (eventSchedulerGraph (fun n => n) "comparison" "FINISH") 3 "2" none []).2.1).2.2
        = (run (eventSchedulerGraph (fun n => n) "comparison" "FINISH") 3 "1" none []).2.2
    ∧ interactThreadId = "1" :=
  C7_thread_noninterference (eventSchedulerGraph (fun n => n) "comparison" "FINISH")
    3 3 "1" "2" none none [] (by decide)

end TRT
